import Mathlib

/-!
Verification of `update_patrons.py`: a fetch–classify–emit pipeline for
patron records. This file gives a shallow embedding of the script's data
model and functions (credential resolution, paginated fetch, tier
classification with date-window eligibility, CSV/JSON emission) and proves
properties about them. Python `datetime` values are modelled by their
calendar fields plus an optional UTC-offset; comparisons follow Python's
semantics, where ordering an offset-aware and an offset-naive datetime
raises `TypeError` (modelled as `Except.error`).
-/

/-- A patron record as built by the fetch stage (`patron_info` dict). -/
structure Patron where
  member_id : String
  displayed_name : String
  last_payment_timestamp : String
  pledge_amount_cents : Nat
deriving DecidableEq

/-- Result of Python datetime parsing: calendar fields plus an optional
UTC offset in microseconds (`none` = offset-naive). -/
structure PyDateTime where
  year : Nat
  month : Nat
  day : Nat
  hour : Nat
  minute : Nat
  second : Nat
  micro : Nat
  tzMicro : Option Int
deriving DecidableEq

/-- Gregorian leap-year test. -/
def isLeap (y : Nat) : Bool := y % 4 = 0 && (y % 100 != 0 || y % 400 = 0)

/-- Number of days in a month of a given year. -/
def daysInMonth (y m : Nat) : Nat :=
  if m = 2 then (if isLeap y then 29 else 28)
  else if m = 4 ∨ m = 6 ∨ m = 9 ∨ m = 11 then 30
  else 31

/-- Days elapsed from a fixed epoch to the civil date `y-m-d` (standard
era/year-of-era computation; only linearity in days matters for the
datetime comparisons below). Valid for `1 ≤ y`, `1 ≤ m ≤ 12`. -/
def daysFromCivil (y m d : Nat) : Nat :=
  let y2 := if m ≤ 2 then y - 1 else y
  let era := y2 / 400
  let yoe := y2 % 400
  let mp := (m + 9) % 12
  let doy := (153 * mp + 2) / 5 + (d - 1)
  let doe := yoe * 365 + yoe / 4 + doy - yoe / 100
  era * 146097 + doe

/-- The naive (wall-clock) value of a datetime, in microseconds from the
epoch of `daysFromCivil`, ignoring any offset. -/
def PyDateTime.naiveMicros (dt : PyDateTime) : Int :=
  ((daysFromCivil dt.year dt.month dt.day * 86400
    + dt.hour * 3600 + dt.minute * 60 + dt.second) * 1000000 + dt.micro : Nat)

/-- The data of a datetime needed for comparison and timedelta
arithmetic: naive value in microseconds plus the optional offset. -/
structure PyTimeVal where
  val : Int
  tzMicro : Option Int
deriving DecidableEq

def PyDateTime.toVal (dt : PyDateTime) : PyTimeVal :=
  ⟨dt.naiveMicros, dt.tzMicro⟩

/-- `dt + timedelta(days = n)`. -/
def addDays (v : PyTimeVal) (n : Nat) : PyTimeVal :=
  ⟨v.val + (n : Int) * 86400000000, v.tzMicro⟩

/-- Python `a > b` on datetimes: aware values compare by absolute (UTC)
time, naive values compare by naive value, and mixing an offset-aware and
an offset-naive datetime raises `TypeError` (`Except.error`). -/
def pyGt (a b : PyTimeVal) : Except Unit Bool :=
  match a.tzMicro, b.tzMicro with
  | some ta, some tb => .ok (decide (a.val - ta > b.val - tb))
  | none, none => .ok (decide (a.val > b.val))
  | _, _ => .error ()

/-! ### String / timestamp parsing -/

/-- Numeric value of a decimal digit character. -/
def digitVal (c : Char) : Nat := c.toNat - 48

/-- Parse exactly two decimal digits. -/
def parse2 : List Char → Option (Nat × List Char)
  | a :: b :: rest =>
      if a.isDigit && b.isDigit then some (10 * digitVal a + digitVal b, rest)
      else none
  | _ => none

/-- Parse exactly four decimal digits. -/
def parse4 : List Char → Option (Nat × List Char)
  | a :: b :: c :: d :: rest =>
      if a.isDigit && b.isDigit && c.isDigit && d.isDigit then
        some (1000 * digitVal a + 100 * digitVal b + 10 * digitVal c + digitVal d, rest)
      else none
  | _ => none

/-- Parse one or two decimal digits (greedy), as the `%m`/`%d` directives
of `strptime` do. -/
def parse1or2 : List Char → Option (Nat × List Char)
  | [] => none
  | a :: rest =>
      if a.isDigit then
        match rest with
        | b :: rest2 =>
            if b.isDigit then some (10 * digitVal a + digitVal b, rest2)
            else some (digitVal a, rest)
        | [] => some (digitVal a, [])
      else none

/-- Consume one expected character. -/
def expectChar (c : Char) : List Char → Option (List Char)
  | x :: rest => if x = c then some rest else none
  | [] => none

/-- Leading run of digits and the remainder. -/
def takeDigits : List Char → List Char × List Char
  | [] => ([], [])
  | c :: rest =>
      if c.isDigit then
        let (ds, r) := takeDigits rest
        (c :: ds, r)
      else ([], c :: rest)

/-- Microseconds denoted by a fractional-second digit string (first six
digits significant, right-padded with zeros). -/
def microOfDigits (ds : List Char) : Nat :=
  (ds.take 6 ++ List.replicate (6 - ds.length) '0').foldl
    (fun acc c => 10 * acc + digitVal c) 0

/-- Parse the strict `YYYY-MM-DD` date prefix used by `fromisoformat`,
validating the calendar ranges (Python's `datetime` requires `year ≥ 1`). -/
def parseDate10 (cs : List Char) : Option ((Nat × Nat × Nat) × List Char) := do
  let (y, r1) ← parse4 cs
  let r2 ← expectChar '-' r1
  let (m, r3) ← parse2 r2
  let r4 ← expectChar '-' r3
  let (d, r5) ← parse2 r4
  if 1 ≤ y ∧ 1 ≤ m ∧ m ≤ 12 ∧ 1 ≤ d ∧ d ≤ daysInMonth y m then
    some ((y, m, d), r5)
  else none

/-- Parse a UTC-offset suffix `Z`, `±HH`, `±HH:MM` or `±HH:MM:SS`,
returning the offset in microseconds. -/
def parseOffset : List Char → Option (Int × List Char)
  | [] => none
  | c :: rest =>
      if c = 'Z' then some (0, rest)
      else if c = '+' ∨ c = '-' then do
        let (hh, r1) ← parse2 rest
        let (mm, r2) ← (match r1 with
          | ':' :: r => parse2 r
          | _ => some (0, r1))
        let (ss, r3) ← (match r2 with
          | ':' :: r => parse2 r
          | _ => some (0, r2))
        if hh ≤ 23 ∧ mm ≤ 59 ∧ ss ≤ 59 then
          let off : Int := ((hh * 3600 + mm * 60 + ss) * 1000000 : Nat)
          some ((if c = '-' then -off else off), r3)
        else none
      else none

/-- Parse the `HH:MM[:SS[.ffffff]]` time part of an ISO timestamp. -/
def parseTime (cs : List Char) : Option ((Nat × Nat × Nat × Nat) × List Char) := do
  let (hh, r1) ← parse2 cs
  let r2 ← expectChar ':' r1
  let (mi, r3) ← parse2 r2
  let (ss, r4) ← (match r3 with
    | ':' :: r => parse2 r
    | _ => some (0, r3))
  let (mic, r5) ← (match r4 with
    | '.' :: r =>
        let (ds, rr) := takeDigits r
        if ds.isEmpty then none else some (microOfDigits ds, rr)
    | _ => some (0, r4))
  if hh ≤ 23 ∧ mi ≤ 59 ∧ ss ≤ 59 then some ((hh, mi, ss, mic), r5)
  else none

/-- Model of `datetime.fromisoformat` on the grammar relevant here:
`YYYY-MM-DD[<sep>HH:MM[:SS[.ffffff]][offset]]` where the separator is a
single arbitrary character. A present offset yields an aware datetime. -/
def fromisoformat (cs : List Char) : Option PyDateTime := do
  let ((y, m, d), r1) ← parseDate10 cs
  match r1 with
  | [] => some ⟨y, m, d, 0, 0, 0, 0, none⟩
  | _ :: r2 => do
    let ((hh, mi, ss, mic), r3) ← parseTime r2
    match r3 with
    | [] => some ⟨y, m, d, hh, mi, ss, mic, none⟩
    | _ => do
      let (off, r4) ← parseOffset r3
      if r4 = [] then some ⟨y, m, d, hh, mi, ss, mic, some off⟩ else none

/-- Model of `datetime.strptime(s, "%Y-%m-%d")`: four-digit year, one- or
two-digit month and day, entire string consumed, calendar-valid. Always
offset-naive. -/
def strptimeYmd (cs : List Char) : Option PyDateTime := do
  let (y, r1) ← parse4 cs
  let r2 ← expectChar '-' r1
  let (m, r3) ← parse1or2 r2
  let r4 ← expectChar '-' r3
  let (d, r5) ← parse1or2 r4
  if r5 = [] ∧ 1 ≤ y ∧ 1 ≤ m ∧ m ≤ 12 ∧ 1 ≤ d ∧ d ≤ daysInMonth y m then
    some ⟨y, m, d, 0, 0, 0, 0, none⟩
  else none

/-- `s.replace('Z', '+00:00')` (every occurrence, as Python does). -/
def replaceZ : List Char → List Char
  | [] => []
  | c :: rest =>
      if c = 'Z' then '+' :: '0' :: '0' :: ':' :: '0' :: '0' :: replaceZ rest
      else c :: replaceZ rest

/-- The timestamp-parsing step of `categorize_patrons` (lines 145-150):
`fromisoformat` on the Z-normalized string when it contains `T`,
otherwise `strptime` with `%Y-%m-%d`. -/
def parse_last_charge (ts : String) : Option PyDateTime :=
  if ts.data.contains 'T' then fromisoformat (replaceZ ts.data)
  else strptimeYmd ts.data

/-! ### Classification (`categorize_patrons`) -/

/-- The exact-match pledge→tier table of `categorize_patrons`
(lines 126-139): category name and eligibility window in days. -/
def tier_table (cents : Nat) : Option (String × Nat) :=
  if cents = 300 then some ("one_month", 30)
  else if cents = 500 then some ("six_months", 180)
  else if cents = 1500 then some ("one_year", 365)
  else none

/-- One iteration of the `categorize_patrons` loop body, as the decision
which bucket (if any) the patron is appended to. `now` is the single
`datetime.now()` value captured before the loop, hence offset-naive.
A `TypeError` from comparing an aware `eligible_until` with the naive
`now` is caught by the same `except` as parse failures: the patron is
skipped. -/
def classify_patron (now : PyTimeVal) (p : Patron) : Option String :=
  match tier_table p.pledge_amount_cents with
  | none => none
  | some (category, duration_days) =>
    if p.last_payment_timestamp = "" then none
    else
      match parse_last_charge p.last_payment_timestamp with
      | none => none
      | some charge_date =>
        match pyGt (addDays charge_date.toVal duration_days) now with
        | .error _ => none
        | .ok b => if b then some category else none

/-! ### Sorting by case-folded display name -/

/-- Lexicographic `≤` on character lists by code point, as Python compares
strings. -/
def strLe : List Char → List Char → Bool
  | [], _ => true
  | _ :: _, [] => false
  | a :: as, b :: bs =>
      if a.toNat < b.toNat then true
      else if b.toNat < a.toNat then false
      else strLe as bs

/-- The sort key of `categorize_patrons` (line 161):
`p['displayed_name'].lower()`, modelled on the ASCII range. -/
def name_key (p : Patron) : List Char := p.displayed_name.data.map Char.toLower

/-- Order on patrons used to sort each bucket. -/
def patronLe (p q : Patron) : Prop := strLe (name_key p) (name_key q) = true

instance : DecidableRel patronLe := fun p q =>
  inferInstanceAs (Decidable (strLe (name_key p) (name_key q) = true))

/-- The accumulator of the classification loop: the three bucket lists, in
dict insertion order `one_month`, `six_months`, `one_year`. -/
abbrev Buckets := List Patron × List Patron × List Patron

/-- One iteration of the `categorize_patrons` loop:
`categories[category].append(patron)` for the category decided by
`classify_patron`, or no change when the patron is skipped. -/
def categorize_step (now : PyTimeVal) (acc : Buckets) (p : Patron) : Buckets :=
  match classify_patron now p with
  | none => acc
  | some c =>
      if c = "one_month" then (acc.1 ++ [p], acc.2.1, acc.2.2)
      else if c = "six_months" then (acc.1, acc.2.1 ++ [p], acc.2.2)
      else if c = "one_year" then (acc.1, acc.2.1, acc.2.2 ++ [p])
      else acc

/-- `categorize_patrons` (lines 115-163): `now` is the naive
`datetime.now()` value in microseconds, captured once for the whole
batch; the result is the categories dict as an association list in its
key insertion order, each bucket sorted by case-folded display name. -/
def categorize_patrons (now : Int) (patrons : List Patron) : List (String × List Patron) :=
  let nowV : PyTimeVal := ⟨now, none⟩
  let b := patrons.foldl (categorize_step nowV) ([], [], [])
  [("one_month", List.insertionSort patronLe b.1),
   ("six_months", List.insertionSort patronLe b.2.1),
   ("one_year", List.insertionSort patronLe b.2.2)]

/-! ### Emission (`write_csv` and the JSON part of `main`) -/

/-- Zero-padded decimal rendering (two digits). -/
def pad2 (n : Nat) : String := if n < 10 then "0" ++ toString n else toString n

/-- Zero-padded decimal rendering (four digits). -/
def pad4 (n : Nat) : String :=
  if n < 10 then "000" ++ toString n
  else if n < 100 then "00" ++ toString n
  else if n < 1000 then "0" ++ toString n
  else toString n

/-- `dt.strftime('%Y-%m-%d')`. -/
def strftimeYmd (dt : PyDateTime) : String :=
  pad4 dt.year ++ "-" ++ pad2 dt.month ++ "-" ++ pad2 dt.day

/-- The per-row timestamp normalization of `write_csv` (lines 176-184):
timestamps containing `T` are re-parsed and shortened to `YYYY-MM-DD`;
on parse failure the original string is kept (`except: pass`); strings
without `T` are kept as-is. -/
def format_timestamp (ts : String) : String :=
  if ts.data.contains 'T' then
    match fromisoformat (replaceZ ts.data) with
    | some dt => strftimeYmd dt
    | none => ts
  else ts

/-- A row of a tabular output file. -/
structure CsvRow where
  member_id : String
  displayed_name : String
  last_payment_timestamp : String
deriving DecidableEq

/-- The rows `write_csv` emits for a patron list (header excluded). -/
def write_csv (patrons : List Patron) : List CsvRow :=
  patrons.map fun p =>
    ⟨p.member_id, p.displayed_name, format_timestamp p.last_payment_timestamp⟩

/-- The header row of every tabular file (`fieldnames`). -/
def csv_header : List String := ["member_id", "displayed_name", "last_payment_timestamp"]

/-- A written tabular file: header plus data rows. -/
structure CsvFile where
  header : List String
  rows : List CsvRow
deriving DecidableEq

def write_csv_file (patrons : List Patron) : CsvFile := ⟨csv_header, write_csv patrons⟩

/-- An entry of the combined structured file `patrons.json`. -/
structure JsonEntry where
  member_id : String
  displayed_name : String
  tier : String
  last_payment_timestamp : String
deriving DecidableEq

/-- The `tier_names` dict of `main` (lines 240-244). -/
def tier_names : List (String × String) :=
  [("one_month", "NOTUS"), ("six_months", "ZEPHYRUS"), ("one_year", "BOREAS")]

/-- `tier_names[category]` (total here since `categorize_patrons` only
produces the three keys of `tier_names`). -/
def tier_name (c : String) : String := (tier_names.lookup c).getD ""

/-- The per-tier output file paths of `main` (lines 227-231). -/
def file_paths : List (String × String) :=
  [("one_month", "_data/one_month_mentions.csv"),
   ("six_months", "_data/six_months_mentions.csv"),
   ("one_year", "_data/one_year_mentions.csv")]

/-- The files `main` writes in one run: the per-tier tabular files (absent
entirely when the early zero-patron branch is taken) and the combined
structured file. -/
structure MainOutput where
  csvFiles : Option (List (String × CsvFile))
  jsonFile : List JsonEntry
deriving DecidableEq

/-- `main` (lines 192-263), as `main_outputs` (Lean reserves the name
`main`): a function of the fetched patron list and
the naive `datetime.now()` value used by classification. With zero
patrons it writes only an empty `patrons.json` and returns (lines
204-218); otherwise it writes the three tabular files and the structured
file built from the buckets in dict order. The function returning a value
models the process completing with exit code 0. -/
def main_outputs (now : Int) (patrons : List Patron) : MainOutput :=
  if patrons = [] then ⟨none, []⟩
  else
    let categories := categorize_patrons now patrons
    let csvs := categories.map fun cl =>
      ((file_paths.lookup cl.1).getD "", write_csv_file cl.2)
    let json := categories.flatMap fun cl =>
      cl.2.map fun p =>
        ⟨p.member_id, p.displayed_name, tier_name cl.1, p.last_payment_timestamp⟩
    ⟨some csvs, json⟩

/-! ### Patron fetch (`get_patrons`) -/

/-- An `included` resource of an API page (user records carry an optional
`full_name` attribute). -/
structure IncludedUser where
  id : String
  type : String
  full_name : Option String
deriving DecidableEq

/-- A `data` element of an API page (campaign member). -/
structure Member where
  id : String
  patron_status : String
  last_charge_date : Option String
  currently_entitled_amount_cents : Option Nat
  user_id : String
deriving DecidableEq

/-- One page of the paginated members endpoint: `data`, `included`, and
whether `links.next` is present. -/
structure Page where
  data : List Member
  included : List IncludedUser
  hasNext : Bool
deriving DecidableEq

/-- The per-page `included_users` index (line 88): user-typed resources
keyed by id. -/
def lookup_user (users : List IncludedUser) (uid : String) : Option IncludedUser :=
  (users.filter fun u => u.type = "user").find? fun u => u.id = uid

/-- The member-processing loop of one page (lines 90-102): keep members
with `patron_status == 'active_patron'` and build `patron_info` records,
with the documented defaults for a missing display name, last charge date
or pledge amount. -/
def extract_page (page : Page) : List Patron :=
  (page.data.filter fun m => m.patron_status = "active_patron").map fun m =>
    let name := match lookup_user page.included m.user_id with
      | some u => u.full_name.getD "Anonymous"
      | none => "Anonymous"
    ⟨m.id, name, m.last_charge_date.getD "", m.currently_entitled_amount_cents.getD 0⟩

/-- The `while url:` pagination loop inside the `try` block (lines
79-107). The transport is modelled by the sequence of responses the
successive requests receive: `Except.error` is a request failure
(timeout, non-2xx, malformed body), and running out of responses while a
next-page link is still present is likewise a failure. -/
def fetch_pages : List (Except Unit Page) → List Patron → Except Unit (List Patron)
  | [], _ => .error ()
  | r :: rest, acc =>
      match r with
      | .error e => .error e
      | .ok page =>
          let acc2 := acc ++ extract_page page
          if page.hasNext then fetch_pages rest acc2 else .ok acc2

/-- `get_patrons` (lines 48-113): empty credentials short-circuit to an
empty list; otherwise the pages are walked and any transport failure
makes the whole call return `[]`, discarding patrons already collected. -/
def get_patrons (token campaign_id : String) (responses : List (Except Unit Page)) :
    List Patron :=
  if token = "" then []
  else if campaign_id = "" then []
  else
    match fetch_pages responses [] with
    | .ok patrons => patrons
    | .error _ => []

/-! ### Credential resolution (`load_config`) -/

/-- The values `dotenv_values` yields for the two keys of interest
(`none` = key absent from the file). -/
structure DotenvConfig where
  access_token : Option String
  campaign_id : Option String

/-- `load_config` (lines 25-45) as a function of the environment values
(`os.environ.get(..., '')`), whether the config file exists, and the
outcome of parsing it (`Except.error` = `dotenv_values` raised; the
exception is caught and only a warning is printed). Totality of this
function models that `load_config` never raises. -/
def load_config (env_token env_cid : String) (file_exists : Bool)
    (file_config : Except String DotenvConfig) : String × String :=
  let token := env_token
  let campaign_id := env_cid
  if token = "" ∨ campaign_id = "" then
    if file_exists then
      match file_config with
      | .ok config =>
          ((if token = "" then config.access_token.getD "" else token),
           (if campaign_id = "" then config.campaign_id.getD "" else campaign_id))
      | .error _ => (token, campaign_id)
    else (token, campaign_id)
  else (token, campaign_id)

/-! ### Helper lemmas -/

/-- A concrete offset-naive `datetime.now()` value for midnight of a given
civil date, in the microsecond scale of `PyTimeVal`. -/
def mkNow (y m d : Nat) : Int := ((daysFromCivil y m d * 86400 * 1000000 : Nat) : Int)

theorem strLe_total : ∀ x y, strLe x y = true ∨ strLe y x = true := by
  intro x
  induction x with
  | nil => intro y; left; rfl
  | cons a as ih =>
    intro y
    cases y with
    | nil => right; rfl
    | cons b bs =>
      simp only [strLe]
      rcases Nat.lt_trichotomy a.toNat b.toNat with h | h | h
      · left; simp [h]
      · have h1 : ¬ a.toNat < b.toNat := by omega
        have h2 : ¬ b.toNat < a.toNat := by omega
        simpa [h1, h2] using ih bs
      · right; simp [h]

theorem strLe_trans : ∀ x y z, strLe x y = true → strLe y z = true → strLe x z = true := by
  intro x
  induction x with
  | nil => intro y z _ _; rfl
  | cons a as ih =>
    intro y z hxy hyz
    cases y with
    | nil => simp [strLe] at hxy
    | cons b bs =>
      cases z with
      | nil => simp [strLe] at hyz
      | cons c cs =>
        simp only [strLe] at hxy hyz ⊢
        by_cases hab : a.toNat < b.toNat
        · by_cases hbc : b.toNat < c.toNat
          · simp [show a.toNat < c.toNat by omega]
          · by_cases hcb : c.toNat < b.toNat
            · simp [hbc, hcb] at hyz
            · simp [show a.toNat < c.toNat by omega]
        · by_cases hba : b.toNat < a.toNat
          · simp [hab, hba] at hxy
          · by_cases hbc : b.toNat < c.toNat
            · simp [show a.toNat < c.toNat by omega]
            · by_cases hcb : c.toNat < b.toNat
              · simp [hbc, hcb] at hyz
              · have hac : ¬ a.toNat < c.toNat := by omega
                have hca : ¬ c.toNat < a.toNat := by omega
                simp only [hab, hba, if_neg, if_false] at hxy
                simp only [hbc, hcb, if_neg, if_false] at hyz
                simp only [hac, hca, if_neg, if_false]
                · exact ih bs cs hxy hyz

instance : IsTotal Patron patronLe := ⟨fun p q => strLe_total (name_key p) (name_key q)⟩

instance : IsTrans Patron patronLe :=
  ⟨fun _ _ _ h1 h2 => strLe_trans _ _ _ h1 h2⟩

/-- Unpacking a successful classification: the tier comes from the pledge
table, the timestamp is non-empty and parses, and the strict window
comparison succeeded (no `TypeError`) with result `true`. -/
theorem classify_patron_some {now : PyTimeVal} {p : Patron} {c : String}
    (h : classify_patron now p = some c) :
    ∃ d dt, tier_table p.pledge_amount_cents = some (c, d)
      ∧ p.last_payment_timestamp ≠ ""
      ∧ parse_last_charge p.last_payment_timestamp = some dt
      ∧ pyGt (addDays dt.toVal d) now = .ok true := by
  rcases htt : tier_table p.pledge_amount_cents with _ | ⟨cat, d⟩
  · simp [classify_patron, htt] at h
  · by_cases hts : p.last_payment_timestamp = ""
    · simp [classify_patron, htt, hts] at h
    · rcases hp : parse_last_charge p.last_payment_timestamp with _ | dt
      · simp [classify_patron, htt, hts, hp] at h
      · rcases hg : pyGt (addDays dt.toVal d) now with e | b
        · simp [classify_patron, htt, hts, hp, hg] at h
        · cases b with
          | false => simp [classify_patron, htt, hts, hp, hg] at h
          | true =>
            have hcat : cat = c := by
              simpa [classify_patron, htt, hts, hp, hg] using h
            refine ⟨d, dt, ?_, hts, rfl, hg⟩
            rw [hcat]

/-- Bucket membership test used to characterize the classification loop. -/
def in_bucket (now : PyTimeVal) (c : String) (p : Patron) : Bool :=
  decide (classify_patron now p = some c)

theorem foldl_categorize_step (now : PyTimeVal) (ps : List Patron) : ∀ acc : Buckets,
    ps.foldl (categorize_step now) acc =
      (acc.1 ++ ps.filter (in_bucket now "one_month"),
       acc.2.1 ++ ps.filter (in_bucket now "six_months"),
       acc.2.2 ++ ps.filter (in_bucket now "one_year")) := by
  induction ps with
  | nil => intro acc; simp
  | cons p ps ih =>
    intro acc
    rw [List.foldl_cons, ih]
    rcases hc : classify_patron now p with _ | c
    · simp [categorize_step, hc, in_bucket, List.filter_cons]
    · by_cases h1 : c = "one_month"
      · subst h1
        simp [categorize_step, hc, in_bucket, List.filter_cons]
      · by_cases h2 : c = "six_months"
        · subst h2
          simp [categorize_step, hc, in_bucket, List.filter_cons]
        · by_cases h3 : c = "one_year"
          · subst h3
            simp [categorize_step, hc, in_bucket, List.filter_cons]
          · simp [categorize_step, hc, in_bucket, List.filter_cons, h1, h2, h3]

theorem categorize_patrons_eq (now : Int) (ps : List Patron) :
    categorize_patrons now ps =
      [("one_month", List.insertionSort patronLe (ps.filter (in_bucket ⟨now, none⟩ "one_month"))),
       ("six_months", List.insertionSort patronLe (ps.filter (in_bucket ⟨now, none⟩ "six_months"))),
       ("one_year", List.insertionSort patronLe (ps.filter (in_bucket ⟨now, none⟩ "one_year")))] := by
  simp only [categorize_patrons]
  rw [foldl_categorize_step]
  simp

/-- Each entry of the categories list is one of the three named buckets,
holding the sorted filter of the input by its classification. -/
theorem mem_categorize {now : Int} {ps : List Patron} {c : String} {l : List Patron}
    (h : (c, l) ∈ categorize_patrons now ps) :
    l = List.insertionSort patronLe (ps.filter (in_bucket ⟨now, none⟩ c))
      ∧ (c = "one_month" ∨ c = "six_months" ∨ c = "one_year") := by
  rw [categorize_patrons_eq] at h
  simp only [List.mem_cons, List.mem_singleton, List.not_mem_nil, or_false,
    Prod.mk.injEq] at h
  rcases h with ⟨hc, hl⟩ | ⟨hc, hl⟩ | ⟨hc, hl⟩ <;> subst hc <;> subst hl <;>
    simp

/-- A patron found in a bucket is an input patron that was classified to
exactly that bucket. -/
theorem mem_bucket {now : Int} {ps : List Patron} {c : String} {l : List Patron} {p : Patron}
    (h : (c, l) ∈ categorize_patrons now ps) (hp : p ∈ l) :
    p ∈ ps ∧ classify_patron ⟨now, none⟩ p = some c := by
  obtain ⟨hl, _⟩ := mem_categorize h
  subst hl
  rw [List.mem_insertionSort, List.mem_filter] at hp
  exact ⟨hp.1, of_decide_eq_true hp.2⟩

/-! ### Sample data used by concrete witnesses -/

def pAlice : Patron := ⟨"m1", "Alice", "2024-03-15", 300⟩
def pBob : Patron := ⟨"m2", "bob", "2024-03-20", 300⟩
def pCarl : Patron := ⟨"m3", "Carl", "2024-03-15", 400⟩
def pDee : Patron := ⟨"m4", "Dee", "", 500⟩
def pEve : Patron := ⟨"m5", "Eve", "gibberish", 1500⟩
def pZed : Patron := ⟨"m6", "Zed", "2999-01-01T00:00:00Z", 300⟩
def pTnaive : Patron := ⟨"m1", "Alice", "2024-03-15T10:00:00", 300⟩
def now0 : Int := mkNow 2024 4 1
def ps0 : List Patron := [pBob, pAlice, pCarl, pDee, pEve, pZed]

/-! ### Claims -/

/-- Claim C4. The tier is determined solely by exact match of
`pledge_amount_cents` (300→one_month with a 30-day window, 500→six_months
with 180 days, 1500→one_year with 365 days); a patron whose pledge amount
is not in {300, 500, 1500} appears in no bucket (the code only logs a
warning), and a classified patron appears in at most one bucket, the one
determined by its pledge amount. -/
theorem C4_tier_by_exact_pledge :
    tier_table 300 = some ("one_month", 30)
  ∧ tier_table 500 = some ("six_months", 180)
  ∧ tier_table 1500 = some ("one_year", 365)
  ∧ (∀ cents, cents ≠ 300 → cents ≠ 500 → cents ≠ 1500 → tier_table cents = none)
  ∧ (∀ now ps c l p, (c, l) ∈ categorize_patrons now ps → p ∈ l →
      ∃ d, tier_table p.pledge_amount_cents = some (c, d))
  ∧ (∀ now ps c l p, tier_table p.pledge_amount_cents = none →
      (c, l) ∈ categorize_patrons now ps → p ∉ l)
  ∧ (∀ now ps c l c2 l2 p, (c, l) ∈ categorize_patrons now ps →
      (c2, l2) ∈ categorize_patrons now ps → p ∈ l → p ∈ l2 → c = c2) := by
  refine ⟨rfl, rfl, rfl, ?_, ?_, ?_, ?_⟩
  · intro cents h1 h2 h3
    simp [tier_table, h1, h2, h3]
  · intro now ps c l p hm hp
    obtain ⟨_, hcl⟩ := mem_bucket hm hp
    obtain ⟨d, dt, htt, -, -, -⟩ := classify_patron_some hcl
    exact ⟨d, htt⟩
  · intro now ps c l p htt hm hp
    obtain ⟨_, hcl⟩ := mem_bucket hm hp
    obtain ⟨d, dt, htt2, -, -, -⟩ := classify_patron_some hcl
    rw [htt] at htt2
    exact Option.noConfusion htt2
  · intro now ps c l c2 l2 p h1 h2 hp1 hp2
    obtain ⟨-, hcl1⟩ := mem_bucket h1 hp1
    obtain ⟨-, hcl2⟩ := mem_bucket h2 hp2
    rw [hcl1] at hcl2
    exact Option.some.inj hcl2

/-- Witness for C4 at concrete inputs: an unknown pledge amount (400) has
no tier, Alice (300 cents) sits in the `one_month` bucket it determines,
Carl (400 cents) is in no bucket, and bucket membership determines the
tier uniquely. -/
theorem C4_tier_by_exact_pledge_witness :
    tier_table 400 = none
  ∧ (∃ d, tier_table pAlice.pledge_amount_cents = some ("one_month", d))
  ∧ pCarl ∉ [pAlice, pBob]
  ∧ ("one_month" : String) = "one_month" :=
  ⟨C4_tier_by_exact_pledge.2.2.2.1 400 (by decide) (by decide) (by decide),
   C4_tier_by_exact_pledge.2.2.2.2.1 now0 ps0 "one_month" [pAlice, pBob] pAlice
     (by decide) (by decide),
   C4_tier_by_exact_pledge.2.2.2.2.2.1 now0 ps0 "one_month" [pAlice, pBob] pCarl
     (by decide) (by decide),
   C4_tier_by_exact_pledge.2.2.2.2.2.2 now0 ps0 "one_month" [pAlice, pBob]
     "one_month" [pAlice, pBob] pAlice (by decide) (by decide) (by decide) (by decide)⟩

/-- Claim C5. A patron appears in a tier's bucket only if its timestamp is
non-empty and parseable and the parsed timestamp plus the tier's window
in days compares strictly greater (without a `TypeError`) than the single
offset-naive `now` captured once before the loop; patrons with missing or
unparseable timestamps are in no bucket. -/
theorem C5_eligibility_window :
    (∀ now ps c l p, (c, l) ∈ categorize_patrons now ps → p ∈ l →
      p.last_payment_timestamp ≠ ""
      ∧ ∃ d dt, tier_table p.pledge_amount_cents = some (c, d)
          ∧ parse_last_charge p.last_payment_timestamp = some dt
          ∧ pyGt (addDays dt.toVal d) ⟨now, none⟩ = Except.ok true)
  ∧ (∀ now ps c l p, (c, l) ∈ categorize_patrons now ps →
      (p.last_payment_timestamp = "" ∨ parse_last_charge p.last_payment_timestamp = none) →
      p ∉ l) := by
  constructor
  · intro now ps c l p hm hp
    obtain ⟨-, hcl⟩ := mem_bucket hm hp
    obtain ⟨d, dt, htt, hts, hparse, hgt⟩ := classify_patron_some hcl
    exact ⟨hts, d, dt, htt, hparse, hgt⟩
  · intro now ps c l p hm hbad hp
    obtain ⟨-, hcl⟩ := mem_bucket hm hp
    obtain ⟨d, dt, htt, hts, hparse, hgt⟩ := classify_patron_some hcl
    rcases hbad with hb | hb
    · exact hts hb
    · rw [hb] at hparse
      exact Option.noConfusion hparse

/-- Witness for C5: Alice's bucket membership yields the parsed date and
strict window comparison; Dee (empty timestamp) and Eve (unparseable
timestamp) are in no bucket. -/
theorem C5_eligibility_window_witness :
    (pAlice.last_payment_timestamp ≠ ""
      ∧ ∃ d dt, tier_table pAlice.pledge_amount_cents = some ("one_month", d)
          ∧ parse_last_charge pAlice.last_payment_timestamp = some dt
          ∧ pyGt (addDays dt.toVal d) ⟨now0, none⟩ = Except.ok true)
  ∧ pDee ∉ [pAlice, pBob]
  ∧ pEve ∉ [pAlice, pBob] :=
  ⟨C5_eligibility_window.1 now0 ps0 "one_month" [pAlice, pBob] pAlice
     (by decide) (by decide),
   C5_eligibility_window.2 now0 ps0 "one_month" [pAlice, pBob] pDee
     (by decide) (Or.inl rfl),
   C5_eligibility_window.2 now0 ps0 "one_month" [pAlice, pBob] pEve
     (by decide) (Or.inr (by decide))⟩

/-- Claim C6. After all patrons are processed, every tier bucket — and hence
the row list of the tabular file written from it, which follows bucket
order — is sorted ascending by display name compared case-insensitively
(lower-cased, code-point order). -/
theorem C6_buckets_sorted :
    ∀ now ps c l, (c, l) ∈ categorize_patrons now ps →
      l.Pairwise patronLe
      ∧ (write_csv l).Pairwise (fun r s =>
          strLe (r.displayed_name.data.map Char.toLower)
                (s.displayed_name.data.map Char.toLower) = true) := by
  intro now ps c l hm
  obtain ⟨hl, -⟩ := mem_categorize hm
  subst hl
  have hs := List.sorted_insertionSort patronLe (ps.filter (in_bucket ⟨now, none⟩ c))
  refine ⟨hs, ?_⟩
  unfold write_csv
  rw [List.pairwise_map]
  exact hs

/-- Witness for C6: the concrete `one_month` bucket (Alice before bob,
case-insensitively) and its CSV rows are pairwise ordered. -/
theorem C6_buckets_sorted_witness :
    ([pAlice, pBob].Pairwise patronLe)
  ∧ (write_csv [pAlice, pBob]).Pairwise (fun r s =>
      strLe (r.displayed_name.data.map Char.toLower)
            (s.displayed_name.data.map Char.toLower) = true) :=
  C6_buckets_sorted now0 ps0 "one_month" [pAlice, pBob] (by decide)

/-- Claim C10. For every input list (including `[]`), `categorize_patrons`
returns a mapping whose key sequence is exactly
`one_month, six_months, one_year`, and every patron occurring in any
bucket is an element of the input list — the very same record, so all
four fields are unchanged. -/
theorem C10_categorize_shape :
    (∀ now ps, (categorize_patrons now ps).map Prod.fst =
      ["one_month", "six_months", "one_year"])
  ∧ (∀ now ps c l p, (c, l) ∈ categorize_patrons now ps → p ∈ l → p ∈ ps) := by
  constructor
  · intro now ps
    rw [categorize_patrons_eq]
    rfl
  · intro now ps c l p hm hp
    exact (mem_bucket hm hp).1

/-- Witness for C10: key list of a concrete run, and Alice's bucket
occurrence traced back to the input list. -/
theorem C10_categorize_shape_witness :
    ((categorize_patrons now0 ps0).map Prod.fst =
      ["one_month", "six_months", "one_year"])
  ∧ pAlice ∈ ps0 :=
  ⟨C10_categorize_shape.1 now0 ps0,
   C10_categorize_shape.2 now0 ps0 "one_month" [pAlice, pBob] pAlice
     (by decide) (by decide)⟩

/-- Claim C2, code bug: a patron whose `last_payment_timestamp` carries a
trailing `Z` parses (after the `Z → +00:00` normalization) to an
offset-aware datetime; even when the parsed timestamp plus the tier
window lies strictly after `now` on the timeline, Python's comparison of
the aware `eligible_until` with the offset-naive `datetime.now()` raises
`TypeError`, which the surrounding `except (ValueError, TypeError)`
catches, so the patron is appended to no bucket — contradicting the
documented classification step the code itself sets up by normalizing
`Z`. Concretely: pledge 300, timestamp `2999-01-01T00:00:00Z`, now =
2024-01-01 (naive): parsing succeeds with offset `+00:00`, the naive
timeline comparison is strictly greater, the Python comparison errors,
and every bucket is empty. -/
theorem C2_zulu_timestamp_excluded :
    parse_last_charge "2999-01-01T00:00:00Z" = some ⟨2999, 1, 1, 0, 0, 0, 0, some 0⟩
  ∧ (addDays (PyDateTime.toVal ⟨2999, 1, 1, 0, 0, 0, 0, some 0⟩) 30).val > mkNow 2024 1 1
  ∧ pyGt (addDays (PyDateTime.toVal ⟨2999, 1, 1, 0, 0, 0, 0, some 0⟩) 30)
      ⟨mkNow 2024 1 1, none⟩ = Except.error ()
  ∧ categorize_patrons (mkNow 2024 1 1) [pZed] =
      [("one_month", []), ("six_months", []), ("one_year", [])] := by
  exact ⟨by decide, by decide, rfl, by decide⟩

/-- Claim C7. `write_csv` timestamp formatting: a full ISO timestamp such as
`2024-03-15T10:00:00Z` is emitted as the bare date `2024-03-15`; a string
without `T` (in particular a bare date) is emitted unchanged; and a
string containing `T` that fails to re-parse is emitted in its original
form. -/
theorem C7_format_timestamp :
    format_timestamp "2024-03-15T10:00:00Z" = "2024-03-15"
  ∧ (∀ ts : String, ts.data.contains 'T' = false → format_timestamp ts = ts)
  ∧ (∀ ts : String, fromisoformat (replaceZ ts.data) = none → format_timestamp ts = ts) := by
  refine ⟨by decide, ?_, ?_⟩
  · intro ts h
    unfold format_timestamp
    rw [h]
    simp
  · intro ts h
    by_cases hc : ts.data.contains 'T' <;> simp [format_timestamp, hc, h]

/-- Witness for C7: the bare date `2024-03-15` (no `T`) and the
unparseable `Thello` both pass through unchanged. -/
theorem C7_format_timestamp_witness :
    format_timestamp "2024-03-15" = "2024-03-15"
  ∧ format_timestamp "Thello" = "Thello" :=
  ⟨C7_format_timestamp.2.1 "2024-03-15" (by decide),
   C7_format_timestamp.2.2 "Thello" (by decide)⟩

/-- Claim C1, counterexample: with zero fetched patrons, `main` takes the
early-return branch (lines 204-218), which writes only the empty
structured file — no tabular file is written at all, refuting the claim
that all three tabular files are created with a header row. -/
theorem C1_counterexample :
    (main_outputs (mkNow 2024 1 1) []).csvFiles = none
  ∧ (main_outputs (mkNow 2024 1 1) []).jsonFile = [] :=
  ⟨rfl, rfl⟩

/-- Claim C1, amended: when the fetch stage produces zero patrons — in
particular when the access token is missing, so `get_patrons` returns an
empty list — the run writes the combined structured file containing an
empty list and completes normally (modelled by `main_outputs` returning a
value), but writes none of the three tabular files. -/
theorem C1_zero_patrons_outputs :
    (∀ now, main_outputs now [] = ⟨none, []⟩)
  ∧ (∀ now cid responses, main_outputs now (get_patrons "" cid responses) = ⟨none, []⟩) :=
  ⟨fun _ => rfl, fun _ _ _ => rfl⟩

/-- Claim C3, counterexample: a run with one eligible patron whose
timestamp is the offset-naive `2024-03-15T10:00:00` produces a structured
file entry carrying that timestamp verbatim, not the bare date
`2024-03-15` that normalization (as `write_csv` performs it) would
yield. -/
theorem C3_counterexample :
    (main_outputs (mkNow 2024 3 20) [pTnaive]).jsonFile =
      [⟨"m1", "Alice", "NOTUS", "2024-03-15T10:00:00"⟩]
  ∧ format_timestamp "2024-03-15T10:00:00" = "2024-03-15"
  ∧ ("2024-03-15T10:00:00" : String) ≠ "2024-03-15" := by
  exact ⟨by decide, by decide, by decide⟩

/-- Claim C3, amended: every entry of the combined structured file comes
from a patron of some bucket and carries that patron's member id, display
name, the human-readable tier label per the mapping one_month→NOTUS,
six_months→ZEPHYRUS, one_year→BOREAS, and the patron's
`last_payment_timestamp` exactly as stored on the record (not normalized
to a bare date). -/
theorem C3_json_entries :
    (tier_name "one_month" = "NOTUS"
      ∧ tier_name "six_months" = "ZEPHYRUS"
      ∧ tier_name "one_year" = "BOREAS")
  ∧ (∀ now ps entry, entry ∈ (main_outputs now ps).jsonFile →
      ∃ c l p, (c, l) ∈ categorize_patrons now ps ∧ p ∈ l ∧
        entry = ⟨p.member_id, p.displayed_name, tier_name c, p.last_payment_timestamp⟩) := by
  refine ⟨⟨rfl, rfl, rfl⟩, ?_⟩
  intro now ps entry h
  by_cases hps : ps = []
  · simp [main_outputs, hps] at h
  · simp only [main_outputs, if_neg hps] at h
    rw [List.mem_flatMap] at h
    obtain ⟨cl, hcl, hentry⟩ := h
    rw [List.mem_map] at hentry
    obtain ⟨p, hp, hpe⟩ := hentry
    exact ⟨cl.1, cl.2, p, hcl, hp, hpe.symm⟩

/-- Witness for C3 (amended): the concrete NOTUS entry of the
counterexample run traces back to a bucket patron. -/
theorem C3_json_entries_witness :
    ∃ c l p, (c, l) ∈ categorize_patrons (mkNow 2024 3 20) [pTnaive] ∧ p ∈ l ∧
      (⟨"m1", "Alice", "NOTUS", "2024-03-15T10:00:00"⟩ : JsonEntry) =
        ⟨p.member_id, p.displayed_name, tier_name c, p.last_payment_timestamp⟩ :=
  C3_json_entries.2 (mkNow 2024 3 20) [pTnaive]
    ⟨"m1", "Alice", "NOTUS", "2024-03-15T10:00:00"⟩ (by decide)

/-- Claim C8. Credential resolution prefers the environment: a non-empty
environment value is returned unchanged (never overwritten by the file);
when one of the two is empty and the file exists and parses, the empty
slots are filled from the file (missing keys become `""`); a parse
failure or a missing file leaves the environment values (empty strings
signalling absence); and the function is total — `load_config` never
raises. -/
theorem C8_load_config_resolution :
    (∀ t c fe fc, t ≠ "" → (load_config t c fe fc).1 = t)
  ∧ (∀ t c fe fc, c ≠ "" → (load_config t c fe fc).2 = c)
  ∧ (∀ t c cfg, t = "" ∨ c = "" →
      load_config t c true (Except.ok cfg) =
        ((if t = "" then cfg.access_token.getD "" else t),
         (if c = "" then cfg.campaign_id.getD "" else c)))
  ∧ (∀ t c err, load_config t c true (Except.error err) = (t, c))
  ∧ (∀ t c fc, load_config t c false fc = (t, c)) := by
  refine ⟨?_, ?_, ?_, ?_, ?_⟩
  · intro t c fe fc ht
    cases fc <;> cases fe <;>
      by_cases hor : t = "" ∨ c = "" <;>
      by_cases hcc : c = "" <;> simp [load_config, ht, hor, hcc]
  · intro t c fe fc hc
    cases fc <;> cases fe <;>
      by_cases hor : t = "" ∨ c = "" <;>
      by_cases htt : t = "" <;> simp [load_config, hc, hor, htt]
  · intro t c cfg hor
    simp [load_config, hor]
  · intro t c err
    by_cases hor : t = "" ∨ c = "" <;> simp [load_config, hor]
  · intro t c fc
    by_cases hor : t = "" ∨ c = "" <;> simp [load_config, hor]

/-- Witness for C8 at concrete inputs: an environment token survives a
populated file; a missing token is filled from the file while the
environment campaign id is kept. -/
theorem C8_load_config_resolution_witness :
    (load_config "envtok" "" true (Except.ok ⟨some "ftok", some "fcid"⟩)).1 = "envtok"
  ∧ (load_config "" "envcid" true (Except.ok ⟨some "ftok", some "fcid"⟩)).2 = "envcid"
  ∧ load_config "" "envcid" true (Except.ok ⟨some "ftok", some "fcid"⟩) = ("ftok", "envcid") :=
  ⟨C8_load_config_resolution.1 "envtok" "" true (Except.ok ⟨some "ftok", some "fcid"⟩)
     (by decide),
   C8_load_config_resolution.2.1 "" "envcid" true (Except.ok ⟨some "ftok", some "fcid"⟩)
     (by decide),
   C8_load_config_resolution.2.2.1 "" "envcid" ⟨some "ftok", some "fcid"⟩ (Or.inl rfl)⟩

/-- The pagination loop hits the failing response and aborts, whatever was
accumulated so far. -/
theorem fetch_pages_error (e : Unit) :
    ∀ (pre post : List (Except Unit Page)) (acc : List Patron),
      (∀ r ∈ pre, ∃ page, r = Except.ok page ∧ page.hasNext = true) →
      fetch_pages (pre ++ Except.error e :: post) acc = Except.error e := by
  intro pre
  induction pre with
  | nil => intro post acc _; rfl
  | cons r pre ih =>
    intro post acc hall
    obtain ⟨page, hr, hnext⟩ := hall r (List.mem_cons_self r pre)
    subst hr
    rw [List.cons_append]
    simp only [fetch_pages, hnext, if_true]
    exact ih post _ (fun r hr => hall r (List.mem_cons_of_mem _ hr))

/-- Claim C9. A transport failure at any page of the paginated fetch (all
earlier responses were successful pages with a next link) makes the whole
fetch return the empty list, discarding the patrons collected from the
earlier pages: `get_patrons` never returns a partial prefix. -/
theorem C9_abort_on_page_failure :
    ∀ (token cid : String) (pre post : List (Except Unit Page)) (e : Unit),
      token ≠ "" → cid ≠ "" →
      (∀ r ∈ pre, ∃ page, r = Except.ok page ∧ page.hasNext = true) →
      get_patrons token cid (pre ++ Except.error e :: post) = [] := by
  intro token cid pre post e ht hc hall
  simp [get_patrons, ht, hc, fetch_pages_error e pre post [] hall]

/-- Witness for C9: a first page containing an active patron followed by a
failing request yields an empty fetch result — the first page's patron is
discarded. -/
theorem C9_abort_on_page_failure_witness :
    get_patrons "tok" "cid"
      [Except.ok ⟨[⟨"m1", "active_patron", some "2024-03-15", some 300, "u1"⟩],
        [⟨"u1", "user", some "Alice"⟩], true⟩, Except.error ()] = [] :=
  C9_abort_on_page_failure "tok" "cid"
    [Except.ok ⟨[⟨"m1", "active_patron", some "2024-03-15", some 300, "u1"⟩],
      [⟨"u1", "user", some "Alice"⟩], true⟩] [] ()
    (by decide) (by decide)
    (by
      intro r hr
      simp only [List.mem_singleton] at hr
      subst hr
      exact ⟨_, rfl, rfl⟩)
